import Mathlib

/-!
Shallow embedding of the tensor-handle core of `mnn-rs` (`src/tensor.rs`)
and verification of the frozen claims about it.

The Rust core wraps an opaque foreign (MNN engine) buffer pointer in a
`Tensor<T>` handle whose type parameter `T` is a compile-time capability
descriptor (location host/device, ownership owned/borrowed/mut-borrowed,
element type `H`).  The foreign engine itself (the `mnn-sys` C wrappers) is
not part of the Rust source under verification; its calls are modelled as
explicit state transitions on an `EngineState`, following the external
interface description of the specification (buffer lifecycle, introspection,
data movement).  Pointers are modelled as `Nat` (0 is the null pointer),
element values of every scalar type as `Int`.
-/

/-- Runtime element-type descriptor attached to a foreign buffer.
Modelled from the spec: `getType(ptr) -> {code,bits,lanes}` — a runtime tag
(type code + bit width + lane count); the concrete `halide_type_t` layout
lives in `mnn-sys`, which is outside `src/`. -/
structure halide_type_t where
  code : Nat
  bits : Nat
  lanes : Nat
deriving DecidableEq, Repr

/-- Modelled from the spec: the compile-time element types `H` implementing
the `mnn-sys` `HalideType` trait (the trait itself is outside `src/`).  A
small representative closed set of scalar types suffices for the claims. -/
inductive HalideTy where
  | f32
  | i32
  | u8
  | i64
deriving DecidableEq, Repr

/-- Modelled from the spec: `halide_type_of::<H>()`, the runtime descriptor
of a compile-time element type (Halide convention: code 0 = int,
1 = uint, 2 = float). -/
def halide_type_of : HalideTy → halide_type_t
  | .f32 => ⟨2, 32, 1⟩
  | .i32 => ⟨0, 32, 1⟩
  | .u8 => ⟨1, 8, 1⟩
  | .i64 => ⟨0, 64, 1⟩

/-- `std::any::type_name::<H>()` for the modelled element types. -/
def HalideTy.typeName : HalideTy → String
  | .f32 => "f32"
  | .i32 => "i32"
  | .u8 => "u8"
  | .i64 => "i64"

/-- The `ErrorKind` variants of the crate that the tensor core constructs
(`TensorCopyFailed` carries the engine status code, `HalideTypeMismatch`
carries the requested type's name). -/
inductive ErrorKind where
  | TensorCopyFailed (code : Int)
  | HalideTypeMismatch (got : String)
deriving DecidableEq, Repr

/-- `mnn_sys::DimensionType`, the foreign engine's own layout enumeration. -/
inductive MnnSysDimensionType where
  | CAFFE
  | CAFFE_C4
  | TENSORFLOW
deriving DecidableEq, Repr

/-- `DimensionType` (tensor.rs lines 143–150). -/
inductive DimensionType where
  | Caffe
  | CaffeC4
  | TensorFlow
deriving DecidableEq, Repr

/-- `DimensionType::to_mnn_sys` (tensor.rs lines 156–162). -/
def DimensionType.to_mnn_sys : DimensionType → MnnSysDimensionType
  | .Caffe => .CAFFE
  | .CaffeC4 => .CAFFE_C4
  | .TensorFlow => .TENSORFLOW

/-- `From<mnn_sys::DimensionType> for DimensionType` (tensor.rs 165–173). -/
def DimensionType.from_mnn_sys : MnnSysDimensionType → DimensionType
  | .CAFFE => .Caffe
  | .CAFFE_C4 => .CaffeC4
  | .TENSORFLOW => .TensorFlow

/-! ## Capability type system (tensor.rs lines 18–99)

The sealed marker types `Host<H>`, `Device<H>`, `Ref<'_, T>`, `RefMut<'_, T>`
form a closed set of capability descriptors; we embed them as one inductive
type.  Lifetimes are erased (they have no runtime content). -/

/-- The closed set of capability descriptors: `Host<H>`, `Device<H>`,
`Ref<'_, T>`, `RefMut<'_, T>` (tensor.rs lines 87–99; sealing at line 16
makes the set closed). -/
inductive TensorTypeD where
  | Host (h : HalideTy)
  | Device (h : HalideTy)
  | Ref (t : TensorTypeD)
  | RefMut (t : TensorTypeD)
deriving DecidableEq, Repr

/-- `TensorType::owned` as implemented for each descriptor
(tensor.rs lines 35–72): `true` for `Host`/`Device`, `false` for
`Ref`/`RefMut`. -/
def TensorTypeD.owned : TensorTypeD → Bool
  | .Host _ => true
  | .Device _ => true
  | .Ref _ => false
  | .RefMut _ => false

/-- `TensorType::borrowed` default method (tensor.rs lines 21–23):
`!Self::owned()`. -/
def TensorTypeD.borrowed (t : TensorTypeD) : Bool :=
  !t.owned

/-- `TensorType::host` as implemented for each descriptor
(tensor.rs lines 35–72): `true` for `Host`, `false` for `Device`,
forwarded to the wrapped descriptor for `Ref`/`RefMut`. -/
def TensorTypeD.host : TensorTypeD → Bool
  | .Host _ => true
  | .Device _ => false
  | .Ref t => t.host
  | .RefMut t => t.host

/-- `TensorType::device` default method (tensor.rs lines 25–27):
`!Self::host()`. -/
def TensorTypeD.device (t : TensorTypeD) : Bool :=
  !t.host

/-- The associated type `TensorType::H` (tensor.rs lines 35–72): the element
type of `Host<H>`/`Device<H>`, forwarded through `Ref`/`RefMut`. -/
def TensorTypeD.elemTy : TensorTypeD → HalideTy
  | .Host h => h
  | .Device h => h
  | .Ref t => t.elemTy
  | .RefMut t => t.elemTy

/-- Membership in the `OwnedTensorType` marker trait: implemented exactly
for `Host<H>` and `Device<H>` (tensor.rs lines 76–77). -/
inductive OwnedTensorTypeP : TensorTypeD → Prop where
  | device (h : HalideTy) : OwnedTensorTypeP (.Device h)
  | host (h : HalideTy) : OwnedTensorTypeP (.Host h)

/-- Membership in the `HostTensorType` marker trait: `Host<H>`, and
`Ref`/`RefMut` of any `HostTensorType` (tensor.rs lines 75, 80–81). -/
inductive HostTensorTypeP : TensorTypeD → Prop where
  | host (h : HalideTy) : HostTensorTypeP (.Host h)
  | refHost {t : TensorTypeD} : HostTensorTypeP t → HostTensorTypeP (.Ref t)
  | refMutHost {t : TensorTypeD} : HostTensorTypeP t → HostTensorTypeP (.RefMut t)

/-- Membership in the `DeviceTensorType` marker trait: `Device<H>`, and
`Ref`/`RefMut` of any `DeviceTensorType` (tensor.rs lines 74, 78–79). -/
inductive DeviceTensorTypeP : TensorTypeD → Prop where
  | device (h : HalideTy) : DeviceTensorTypeP (.Device h)
  | refDevice {t : TensorTypeD} : DeviceTensorTypeP t → DeviceTensorTypeP (.Ref t)
  | refMutDevice {t : TensorTypeD} : DeviceTensorTypeP t → DeviceTensorTypeP (.RefMut t)

/-- Membership in the `MutableTensorType` marker trait: every
`OwnedTensorType`, and `RefMut<'_, T>` for every `T: TensorType`
(tensor.rs lines 82–83). -/
inductive MutableTensorTypeP : TensorTypeD → Prop where
  | ofOwned {t : TensorTypeD} : OwnedTensorTypeP t → MutableTensorTypeP t
  | refMut (t : TensorTypeD) : MutableTensorTypeP (.RefMut t)

/-- Membership in the `RefTensorType` marker trait: `Ref<'_, T>` and
`RefMut<'_, T>` for every `T: TensorType` (tensor.rs lines 84–85). -/
inductive RefTensorTypeP : TensorTypeD → Prop where
  | ref (t : TensorTypeD) : RefTensorTypeP (.Ref t)
  | refMut (t : TensorTypeD) : RefTensorTypeP (.RefMut t)

/-! ## Shape abstraction (tensor.rs lines 470–562) -/

/-- `TensorShape` (tensor.rs lines 470–475): a fixed 4-slot storage array
plus the logical size.  The Rust `[i32; 4]` array is modelled as a
`List Int`; every shape the code constructs has storage length 4. -/
structure TensorShape where
  shape : List Int
  size : Nat
deriving DecidableEq, Repr

/-- The `Deref` impl for `TensorShape` (tensor.rs lines 495–501):
`&self.shape[..self.size]` — iterating/dereferencing the shape yields
exactly the first `size` storage entries. -/
def TensorShape.toList (s : TensorShape) : List Int :=
  s.shape.take s.size

/-- `AsTensorShape for T: AsRef<[i32]>` (tensor.rs lines 533–556): a
sequence longer than 4 keeps only its first 4 entries with `size = 4`; a
sequence of length ≤ 4 is stored as given, padded to 4 slots with `1`
(chaining with an infinite repeat of `1` and taking 4), with
`size =` the input length. -/
def asTensorShapeList (this : List Int) : TensorShape :=
  let len := this.length
  if len > 4 then
    { shape := this.take 4, size := 4 }
  else
    { shape := (this ++ List.replicate 4 1).take 4, size := len }

/-- `AsTensorShape for TensorShape` (tensor.rs lines 558–562): `*self`. -/
def asTensorShapeShape (s : TensorShape) : TensorShape :=
  s

/-! ## Foreign engine model

The `mnn-sys` engine calls used by `tensor.rs` are modelled from the spec's
external-interface section: buffer lifecycle (`create`/`createDevice`/
`destroy`), introspection (`shape`, `elementSize`, `getDimensionType`,
`isTypeOf`), data movement (`copyFromHostTensor`/`copyToHostTensor`,
`hostPointer`).  Buffers live in an explicit `EngineState`; caller-owned
host slices handed to borrowed constructors live in a separate external
memory map, so aliasing is observable. -/

/-- Backing storage of a foreign buffer: engine-allocated host storage,
an alias of a caller-owned external slice (identified by its pointer), or
device-resident storage. -/
inductive Storage where
  | own (data : List Int)
  | ali (ext : Nat)
  | dev (data : List Int)
deriving DecidableEq, Repr

/-- A foreign buffer: the dimension extents the engine was given, its
dimension layout, its runtime element-type tag, and its storage. -/
structure MnnBuffer where
  dims : List Int
  dimType : MnnSysDimensionType
  htype : halide_type_t
  store : Storage
deriving DecidableEq, Repr

/-- Element count of a buffer: product of its dimension extents
(`elementSize` in the engine's interface). -/
def MnnBuffer.elemCount (b : MnnBuffer) : Nat :=
  (b.dims.map Int.toNat).prod

/-- The foreign engine's state: live buffers by pointer, caller-owned
external host memory by pointer, a fresh-pointer counter, and event logs of
`destroy` calls and buffer creations (the creation log records each buffer
as created, so claims about intermediate temporaries are observable). -/
structure EngineState where
  bufs : List (Nat × MnnBuffer)
  mem : List (Nat × List Int)
  next : Nat
  destroyLog : List Nat
  createLog : List (Nat × MnnBuffer)
deriving DecidableEq, Repr

def EngineState.lookupBuf (s : EngineState) (p : Nat) : Option MnnBuffer :=
  s.bufs.lookup p

def EngineState.lookupMem (s : EngineState) (e : Nat) : List Int :=
  (s.mem.lookup e).getD []

/-- `destroy(ptr)`: the buffer is released; the call is logged. -/
def Tensor_destroy (p : Nat) (s : EngineState) : EngineState :=
  { s with
    bufs := s.bufs.filter (fun q => q.1 != p)
    destroyLog := p :: s.destroyLog }

/-- `createWith(shapePtr, size, htype, data, dimType)`: allocates a fresh
non-null buffer; a null `data` argument means engine-allocated host storage
(zero-initialized in the model; the engine only promises allocation), a
non-null `data` argument makes the buffer alias the caller's memory. -/
def Tensor_createWith (dims : List Int) (ht : halide_type_t) (data : Option Nat)
    (dt : MnnSysDimensionType) (s : EngineState) : Nat × EngineState :=
  let p := s.next
  let store : Storage :=
    match data with
    | none => .own (List.replicate (dims.map Int.toNat).prod 0)
    | some e => .ali e
  let b : MnnBuffer := ⟨dims, dt, ht, store⟩
  (p, { s with
        bufs := (p, b) :: s.bufs
        next := s.next + 1
        createLog := (p, b) :: s.createLog })

/-- `createDevice(shapePtr, size, htype, dimType)`: allocates a fresh
non-null device-resident buffer. -/
def Tensor_createDevice (dims : List Int) (ht : halide_type_t)
    (dt : MnnSysDimensionType) (s : EngineState) : Nat × EngineState :=
  let p := s.next
  let b : MnnBuffer := ⟨dims, dt, ht, .dev (List.replicate (dims.map Int.toNat).prod 0)⟩
  (p, { s with
        bufs := (p, b) :: s.bufs
        next := s.next + 1
        createLog := (p, b) :: s.createLog })

/-- `elementSize(ptr)`: the buffer's element count. -/
def Tensor_elementSize (p : Nat) (s : EngineState) : Nat :=
  match s.lookupBuf p with
  | some b => b.elemCount
  | none => 0

/-- `isTypeOf(ptr, descriptor)`: compares the buffer's runtime element-type
tag with the given descriptor. -/
def Tensor_isTypeOf (p : Nat) (d : halide_type_t) (s : EngineState) : Bool :=
  match s.lookupBuf p with
  | some b => b.htype == d
  | none => false

/-- `getDimensionType(ptr)`: the layout recorded at creation. -/
def Tensor_getDimensionType (p : Nat) (s : EngineState) : MnnSysDimensionType :=
  match s.lookupBuf p with
  | some b => b.dimType
  | none => .CAFFE

/-- `shape(ptr)`: the dimension extents recorded at creation, returned in
the fixed 4-slot representation. -/
def Tensor_shape (p : Nat) (s : EngineState) : TensorShape :=
  match s.lookupBuf p with
  | some b => { shape := (b.dims ++ List.replicate 4 1).take 4, size := b.dims.length }
  | none => { shape := List.replicate 4 1, size := 0 }

/-- The host data a buffer's host pointer resolves to: its own storage, or
the caller's external slice it aliases. -/
def MnnBuffer.hostData (b : MnnBuffer) (s : EngineState) : List Int :=
  match b.store with
  | .own d => d
  | .ali e => s.lookupMem e
  | .dev d => d

/-- `hostPointer(ptr)` read view: the data behind the buffer's host
pointer. -/
def Tensor_host (p : Nat) (s : EngineState) : List Int :=
  match s.lookupBuf p with
  | some b => b.hostData s
  | none => []

/-- Writing `new` through a pointer to `old`: overwrites a prefix of the
pointed-to memory, leaving any remainder intact. -/
def writeList (new old : List Int) : List Int :=
  new ++ old.drop new.length

def EngineState.updateBuf (s : EngineState) (p : Nat) (b : MnnBuffer) : EngineState :=
  { s with bufs := s.bufs.map (fun q => if q.1 = p then (p, b) else q) }

def EngineState.updateMem (s : EngineState) (e : Nat) (d : List Int) : EngineState :=
  { s with mem := s.mem.map (fun q => if q.1 = e then (e, d) else q) }

/-- A write through the buffer's mutable host pointer
(`hostPointerMut(ptr)`): lands in the buffer's own storage, or — for a
buffer created over caller memory — directly in the caller's external
slice. -/
def writeHostData (p : Nat) (new : List Int) (s : EngineState) : EngineState :=
  match s.lookupBuf p with
  | none => s
  | some b =>
    match b.store with
    | .own d => s.updateBuf p { b with store := .own (writeList new d) }
    | .ali e => s.updateMem e (writeList new (s.lookupMem e))
    | .dev d => s.updateBuf p { b with store := .dev (writeList new d) }

/-- `copyFromHostTensor(dst, src) -> statusCode`: the engine performs the
staged copy and reports a status code; `code` is the code the engine
reports on this call (an oracle for engine-internal failure).  Per the
engine's convention a zero code is non-success; the copy takes effect
exactly on success. -/
def Tensor_copyFromHostTensor (dst src : Nat) (code : Int) (s : EngineState) :
    Int × EngineState :=
  if code != 0 then (code, writeHostData dst (Tensor_host src s) s) else (code, s)

/-- `copyToHostTensor(src, dst) -> statusCode`: as `copyFromHostTensor`,
in the device-to-host direction. -/
def Tensor_copyToHostTensor (src dst : Nat) (code : Int) (s : EngineState) :
    Int × EngineState :=
  if code != 0 then (code, writeHostData dst (Tensor_host src s) s) else (code, s)

/-! ## The tensor handle (tensor.rs lines 101–411) -/

/-- `Tensor<T>` (tensor.rs lines 101–104): a foreign buffer pointer tagged
with a capability descriptor.  The compile-time parameter `T` becomes the
`ty` field. -/
structure Tensor where
  ty : TensorTypeD
  tensor : Nat
deriving DecidableEq, Repr

/-- `impl Drop for Tensor<T>` (tensor.rs lines 106–114): calls
`Tensor_destroy` on the buffer pointer exactly when `T::owned()`. -/
def Tensor.drop (t : Tensor) (s : EngineState) : EngineState :=
  if t.ty.owned then Tensor_destroy t.tensor s else s

/-- `Tensor::from_ptr` (tensor.rs lines 183–189): `assert!(!tensor.is_null())`
then wraps the pointer; a null pointer is a fatal assertion (`none`). -/
def Tensor.from_ptr (ty : TensorTypeD) (tensor : Nat) : Option Tensor :=
  if tensor == 0 then none else some ⟨ty, tensor⟩

/-- `Tensor::copy_from_host_tensor` (tensor.rs lines 191–195): calls the
engine, then `ensure!(ret != 0, ErrorKind::TensorCopyFailed(ret))` —
returns the `TensorCopyFailed` error carrying the engine's code when the
code is zero, `Ok(())` otherwise.  `code` is the status the engine reports
on this call. -/
def Tensor.copy_from_host_tensor (self other : Tensor) (code : Int)
    (s : EngineState) : Except ErrorKind Unit × EngineState :=
  let (ret, s1) := Tensor_copyFromHostTensor self.tensor other.tensor code s
  if ret != 0 then (.ok (), s1) else (.error (.TensorCopyFailed ret), s1)

/-- `Tensor::copy_to_host_tensor` (tensor.rs lines 198–202): symmetric to
`copy_from_host_tensor`. -/
def Tensor.copy_to_host_tensor (self other : Tensor) (code : Int)
    (s : EngineState) : Except ErrorKind Unit × EngineState :=
  let (ret, s1) := Tensor_copyToHostTensor self.tensor other.tensor code s
  if ret != 0 then (.ok (), s1) else (.error (.TensorCopyFailed ret), s1)

/-- `Tensor::shape` (tensor.rs lines 209–211). -/
def Tensor.shape (t : Tensor) (s : EngineState) : TensorShape :=
  Tensor_shape t.tensor s

/-- `Tensor::element_size` (tensor.rs lines 237–239). -/
def Tensor.element_size (t : Tensor) (s : EngineState) : Nat :=
  Tensor_elementSize t.tensor s

/-- `Tensor::get_dimension_type` (tensor.rs lines 271–273). -/
def Tensor.get_dimension_type (t : Tensor) (s : EngineState) : DimensionType :=
  DimensionType.from_mnn_sys (Tensor_getDimensionType t.tensor s)

/-- `Tensor::is_type_of::<H>` (tensor.rs lines 279–282): compares the
buffer's runtime tag with `halide_type_of::<H>()`. -/
def Tensor.is_type_of (t : Tensor) (h : HalideTy) (s : EngineState) : Bool :=
  Tensor_isTypeOf t.tensor (halide_type_of h) s

/-- `Tensor::try_host` (tensor.rs lines 317–330): computes the element
count, checks `is_type_of::<T::H>` and fails with `HalideTypeMismatch`
carrying `type_name::<T::H>()` on disagreement — only on agreement does it
cast the host pointer and build a slice of `element_size` elements. -/
def Tensor.try_host (t : Tensor) (s : EngineState) : Except ErrorKind (List Int) :=
  let size := t.element_size s
  if t.is_type_of t.ty.elemTy s then
    .ok ((Tensor_host t.tensor s).take size)
  else
    .error (.HalideTypeMismatch t.ty.elemTy.typeName)

/-- `Tensor::try_host_mut` (tensor.rs lines 332–347): same check and view
construction as `try_host`, through the mutable host pointer. -/
def Tensor.try_host_mut (t : Tensor) (s : EngineState) : Except ErrorKind (List Int) :=
  let size := t.element_size s
  if t.is_type_of t.ty.elemTy s then
    .ok ((Tensor_host t.tensor s).take size)
  else
    .error (.HalideTypeMismatch t.ty.elemTy.typeName)

/-- `Tensor::host` (tensor.rs lines 349–351): `try_host().expect(..)` —
the mismatch condition is fatal (`none`). -/
def Tensor.host (t : Tensor) (s : EngineState) : Option (List Int) :=
  (t.try_host s).toOption

/-- `Tensor::host_mut` (tensor.rs lines 353–355). -/
def Tensor.host_mut (t : Tensor) (s : EngineState) : Option (List Int) :=
  (t.try_host_mut s).toOption

/-- `Tensor::new` (tensor.rs lines 381–411), for `T: OwnedTensorType`:
normalizes the shape argument, then allocates via `Tensor_createDevice`
with the requested `dm_type` when `T::device()`, and otherwise via
`Tensor_createWith` with a null data pointer and
`DimensionType::Caffe.to_mnn_sys()` (the host branch passes `Caffe`, not
`dm_type`); asserts the returned pointer non-null (`none` on null). -/
def Tensor.new (ty : TensorTypeD) (shape0 : TensorShape) (dm_type : DimensionType)
    (s : EngineState) : Option (Tensor × EngineState) :=
  let shape := asTensorShapeShape shape0
  let r :=
    if ty.device then
      Tensor_createDevice (shape.shape.take shape.size) (halide_type_of ty.elemTy)
        dm_type.to_mnn_sys s
    else
      Tensor_createWith (shape.shape.take shape.size) (halide_type_of ty.elemTy)
        none (DimensionType.Caffe.to_mnn_sys) s
  if r.1 == 0 then none else some (⟨ty, r.1⟩, r.2)

/-- `Tensor::new` called with a plain dimension sequence: the
`impl AsTensorShape` argument is normalized by `as_tensor_shape` first
(tensor.rs line 386). -/
def Tensor.newList (ty : TensorTypeD) (dims : List Int) (dm_type : DimensionType)
    (s : EngineState) : Option (Tensor × EngineState) :=
  Tensor.new ty (asTensorShapeList dims) dm_type s

/-- The host branch of `Tensor::fill` (tensor.rs lines 292–299): reads
`element_size`, `assert!(self.is_type_of::<T::H>())` (fatal on mismatch),
then writes `value` to every one of the `element_size` slice elements
through the mutable host pointer. -/
def Tensor.fillHostBranch (t : Tensor) (value : Int) (s : EngineState) :
    Option EngineState :=
  let size := t.element_size s
  if t.is_type_of t.ty.elemTy s then
    some (writeHostData t.tensor (List.replicate size value) s)
  else
    none

/-- `Tensor::fill` (tensor.rs lines 288–310), for `T: MutableTensorType`:
on `T::host()` runs the host branch; on `T::device()` reads the device
tensor's shape and dimension type, allocates a temporary
`Tensor<Host<T::H>>` via `Tensor::new(shape, dm_type)`, fills it (the
recursive `host.fill(value)` call takes the host branch since
`Host::<H>::host()` is true), copies it into the device buffer via
`copy_from_host_tensor` with `.expect` (copy failure is fatal, `none`),
and drops the temporary at end of scope.  `code` is the status the engine
reports for the staged copy. -/
def Tensor.fill (t : Tensor) (value : Int) (code : Int) (s : EngineState) :
    Option EngineState :=
  if t.ty.host then
    t.fillHostBranch value s
  else if t.ty.device then
    match Tensor.new (.Host t.ty.elemTy) (t.shape s) (t.get_dimension_type s) s with
    | none => none
    | some (host, s1) =>
      match host.fillHostBranch value s1 with
      | none => none
      | some s2 =>
        let (res, s3) := t.copy_from_host_tensor host code s2
        match res with
        | .ok _ => some (host.drop s3)
        | .error _ => none
  else
    none

/-! ## Borrowed constructors (tensor.rs lines 601–642) -/

/-- `Tensor::borrowed` (tensor.rs lines 605–622), for
`T: HostTensorType + RefTensorType`: normalizes the shape, then calls
`Tensor_createWith` passing the caller slice's pointer (`inputPtr`) as the
data argument and `DimensionType::Caffe.to_mnn_sys()` as the layout; the
returned pointer is asserted non-null. -/
def Tensor.borrowed (ty : TensorTypeD) (shape0 : TensorShape) (inputPtr : Nat)
    (s : EngineState) : Option (Tensor × EngineState) :=
  let shape := asTensorShapeShape shape0
  let r := Tensor_createWith (shape.shape.take shape.size)
    (halide_type_of ty.elemTy) (some inputPtr) (DimensionType.Caffe.to_mnn_sys) s
  if r.1 == 0 then none else some (⟨ty, r.1⟩, r.2)

/-- `Tensor::borrowed_mut` (tensor.rs lines 624–641): identical to
`borrowed` except the caller slice is taken mutably (`as_mut_ptr`); the
same pointer is passed as the data argument. -/
def Tensor.borrowed_mut (ty : TensorTypeD) (shape0 : TensorShape) (inputPtr : Nat)
    (s : EngineState) : Option (Tensor × EngineState) :=
  let shape := asTensorShapeShape shape0
  let r := Tensor_createWith (shape.shape.take shape.size)
    (halide_type_of ty.elemTy) (some inputPtr) (DimensionType.Caffe.to_mnn_sys) s
  if r.1 == 0 then none else some (⟨ty, r.1⟩, r.2)

/-! ## The erased handle (tensor.rs lines 683–726) -/

/-- `RawTensor` (tensor.rs lines 683–686): a bare foreign pointer with no
compile-time capability. -/
structure RawTensor where
  inner : Nat
deriving DecidableEq, Repr

/-- `impl Drop for RawTensor` (tensor.rs lines 688–694): unconditionally
calls `Tensor_destroy` on the wrapped pointer. -/
def RawTensor.drop (r : RawTensor) (s : EngineState) : EngineState :=
  Tensor_destroy r.inner s

/-- `RawTensor::to_concrete` (tensor.rs lines 719–725): wraps `self` in
`ManuallyDrop` (so the erased handle's destructor will not run) and
reinterprets the same pointer via `Tensor::from_ptr` at the caller-chosen
capability. -/
def RawTensor.to_concrete (r : RawTensor) (ty : TensorTypeD) : Option Tensor :=
  Tensor.from_ptr ty r.inner

/-- The promotion lifecycle: `to_concrete` followed by dropping the
produced concrete handle.  Because `to_concrete` consumed the erased
handle through `ManuallyDrop`, the erased handle's destructor contributes
no `Tensor_destroy` call to this composite. -/
def RawTensor.promoteAndDrop (r : RawTensor) (ty : TensorTypeD) (s : EngineState) :
    Option EngineState :=
  match r.to_concrete ty with
  | none => none
  | some t => some (t.drop s)

/-! ## Helper lemmas on association lists and the engine state -/

theorem lookup_assoc_update {β : Type} (l : List (Nat × β)) (p : Nat) (b : β)
    (h : (l.lookup p).isSome = true) :
    (l.map (fun q => if q.1 = p then (p, b) else q)).lookup p = some b := by
  induction l with
  | nil => simp at h
  | cons a t ih =>
    rcases a with ⟨k, v⟩
    by_cases hk : k = p
    · subst hk
      simp
  
    · have hpk : (p == k) = false := beq_false_of_ne (Ne.symm hk)
      simp only [List.lookup_cons, hpk] at h
      simp only [List.map_cons, if_neg hk, List.lookup_cons, hpk]
      exact ih h

theorem lookup_assoc_update_ne {β : Type} (l : List (Nat × β)) (p q : Nat) (b : β)
    (hq : q ≠ p) :
    (l.map (fun x => if x.1 = p then (p, b) else x)).lookup q = l.lookup q := by
  induction l with
  | nil => simp
  | cons a t ih =>
    rcases a with ⟨k, v⟩
    by_cases hk : k = p
    · subst hk
      have hqk : (q == k) = false := beq_false_of_ne hq
      rw [List.map_cons, if_pos (show (k, v).1 = k from rfl)]
      simp only [List.lookup_cons, hqk]
      exact ih
    · simp only [List.map_cons, if_neg hk, List.lookup_cons]
      cases hqk : q == k with
      | true => rfl
      | false => exact ih

theorem lookup_assoc_filter_ne {β : Type} (l : List (Nat × β)) (p q : Nat)
    (hpq : p ≠ q) :
    (l.filter (fun x => x.1 != q)).lookup p = l.lookup p := by
  induction l with
  | nil => simp
  | cons a t ih =>
    rcases a with ⟨k, v⟩
    by_cases hk : k = q
    · subst hk
      have hpk : (p == k) = false := beq_false_of_ne hpq
      simp only [List.filter_cons, bne_self_eq_false, Bool.false_eq_true, if_neg,
        List.lookup_cons, hpk, ih]
      simp [ih]
    · have : (k != q) = true := by simp [hk]
      simp only [List.filter_cons, this, if_pos, List.lookup_cons]
      cases hpk : p == k with
      | true => rfl
      | false => exact ih

theorem writeList_full {n : Nat} {v : Int} {d : List Int} (hd : d.length = n) :
    writeList (List.replicate n v) d = List.replicate n v := by
  have hdrop : d.drop n = [] := by
    rw [← hd]
    exact List.drop_length d
  simp [writeList, hdrop]

theorem lookupBuf_updateBuf_self (s : EngineState) (p : Nat) (b : MnnBuffer)
    (h : (s.bufs.lookup p).isSome = true) :
    (s.updateBuf p b).lookupBuf p = some b := by
  simp only [EngineState.updateBuf, EngineState.lookupBuf]
  exact lookup_assoc_update s.bufs p b h

theorem lookupBuf_updateBuf_ne (s : EngineState) (p q : Nat) (b : MnnBuffer)
    (hq : q ≠ p) :
    (s.updateBuf p b).lookupBuf q = s.lookupBuf q := by
  simp only [EngineState.updateBuf, EngineState.lookupBuf]
  exact lookup_assoc_update_ne s.bufs p q b hq

theorem lookupMem_updateMem_self (s : EngineState) (e : Nat) (d : List Int)
    (h : (s.mem.lookup e).isSome = true) :
    (s.updateMem e d).lookupMem e = d := by
  simp only [EngineState.updateMem, EngineState.lookupMem]
  rw [lookup_assoc_update s.mem e d h]
  rfl

theorem lookupBuf_updateMem (s : EngineState) (e : Nat) (d : List Int) (p : Nat) :
    (s.updateMem e d).lookupBuf p = s.lookupBuf p := rfl

theorem lookupMem_updateBuf (s : EngineState) (p : Nat) (b : MnnBuffer) (e : Nat) :
    (s.updateBuf p b).lookupMem e = s.lookupMem e := rfl

theorem lookupBuf_destroy_ne (s : EngineState) (p q : Nat) (hpq : p ≠ q) :
    (Tensor_destroy q s).lookupBuf p = s.lookupBuf p := by
  simp only [Tensor_destroy, EngineState.lookupBuf]
  exact lookup_assoc_filter_ne s.bufs p q hpq

theorem lookupMem_destroy (s : EngineState) (q e : Nat) :
    (Tensor_destroy q s).lookupMem e = s.lookupMem e := rfl

/-- Expansion of `writeHostData` at a known buffer. -/
theorem writeHostData_eq (p : Nat) (new : List Int) (s : EngineState) (b : MnnBuffer)
    (hb : s.lookupBuf p = some b) :
    writeHostData p new s =
      match b.store with
      | .own d => s.updateBuf p { b with store := .own (writeList new d) }
      | .ali e => s.updateMem e (writeList new (s.lookupMem e))
      | .dev d => s.updateBuf p { b with store := .dev (writeList new d) } := by
  unfold writeHostData
  rw [hb]

/-- Reading a buffer's host data right after writing through its host
pointer yields the written prefix over the old contents. -/
theorem Tensor_host_writeHostData_self (p : Nat) (new : List Int) (s : EngineState)
    (b : MnnBuffer) (hb : s.lookupBuf p = some b)
    (hmem : ∀ e, b.store = Storage.ali e → (s.mem.lookup e).isSome = true) :
    Tensor_host p (writeHostData p new s) = writeList new (b.hostData s) := by
  have hsome : (s.bufs.lookup p).isSome = true := by
    have : s.bufs.lookup p = some b := hb
    rw [this]
    rfl
  have hw := writeHostData_eq p new s b hb
  cases hst : b.store with
  | own d =>
    rw [hst] at hw
    have hw2 : writeHostData p new s
        = s.updateBuf p { b with store := Storage.own (writeList new d) } := hw
    have hl := lookupBuf_updateBuf_self s p
      ({ b with store := Storage.own (writeList new d) }) hsome
    rw [hw2]
    unfold Tensor_host
    rw [hl]
    simp [MnnBuffer.hostData, hst]
  | ali e =>
    have hm := hmem e hst
    rw [hst] at hw
    have hw2 : writeHostData p new s = s.updateMem e (writeList new (s.lookupMem e)) := hw
    rw [hw2]
    unfold Tensor_host
    rw [show (s.updateMem e (writeList new (s.lookupMem e))).lookupBuf p = some b from hb]
    simp only [MnnBuffer.hostData, hst]
    rw [lookupMem_updateMem_self s e _ hm]
  | dev d =>
    rw [hst] at hw
    have hw2 : writeHostData p new s
        = s.updateBuf p { b with store := Storage.dev (writeList new d) } := hw
    have hl := lookupBuf_updateBuf_self s p
      ({ b with store := Storage.dev (writeList new d) }) hsome
    rw [hw2]
    unfold Tensor_host
    rw [hl]
    simp [MnnBuffer.hostData, hst]

/-- A write through buffer `p`'s host pointer leaves every other buffer's
association intact. -/
theorem lookupBuf_writeHostData_ne (p q : Nat) (new : List Int) (s : EngineState)
    (hq : q ≠ p) :
    (writeHostData p new s).lookupBuf q = s.lookupBuf q := by
  cases hp : s.lookupBuf p with
  | none =>
    have hw : writeHostData p new s = s := by
      unfold writeHostData
      rw [hp]
    rw [hw]
  | some b =>
    have hw := writeHostData_eq p new s b hp
    cases hst : b.store with
    | own d =>
      rw [hst] at hw
      have hw2 : writeHostData p new s
          = s.updateBuf p { b with store := Storage.own (writeList new d) } := hw
      rw [hw2]
      exact lookupBuf_updateBuf_ne s p q _ hq
    | ali e =>
      rw [hst] at hw
      have hw2 : writeHostData p new s
          = s.updateMem e (writeList new (s.lookupMem e)) := hw
      rw [hw2]
      rfl
    | dev d =>
      rw [hst] at hw
      have hw2 : writeHostData p new s
          = s.updateBuf p { b with store := Storage.dev (writeList new d) } := hw
      rw [hw2]
      exact lookupBuf_updateBuf_ne s p q _ hq

theorem take_pad_cancel_gen {α : Type} (l pad : List α) (h : l.length ≤ 4) :
    ((l ++ pad).take 4).take l.length = l := by
  rw [List.take_take, min_eq_left h, List.take_append_eq_append_take,
    List.take_length, Nat.sub_self]
  simp

theorem take_pad_cancel (l : List Int) (h : l.length ≤ 4) :
    ((l ++ List.replicate 4 1).take 4).take l.length = l :=
  take_pad_cancel_gen l (List.replicate 4 1) h

/-! ## The claims -/

/-- C9: normalizing an already-normalized `TensorShape` value with
`as_tensor_shape` returns it unchanged (the `AsTensorShape` impl for
`TensorShape` is the identity), hence normalization is idempotent. -/
theorem as_tensor_shape_identity_on_shapes :
    (∀ s : TensorShape, asTensorShapeShape s = s) ∧
    (∀ l : List Int, asTensorShapeShape (asTensorShapeList l) = asTensorShapeList l) :=
  ⟨fun _ => rfl, fun _ => rfl⟩

/-- C5: `as_tensor_shape` on a signed dimension sequence of length `L`
keeps the first 4 entries with `size = 4` when `L > 4`; when `L ≤ 4` it
stores the input exactly with `size = L`, pads the unused trailing storage
slots with `1`, and dereferencing (`toList`) still yields exactly the `L`
original entries. -/
theorem as_tensor_shape_normalizes (l : List Int) :
    (4 < l.length →
      (asTensorShapeList l).size = 4 ∧
      (asTensorShapeList l).shape = l.take 4 ∧
      (asTensorShapeList l).toList = l.take 4) ∧
    (l.length ≤ 4 →
      (asTensorShapeList l).size = l.length ∧
      (asTensorShapeList l).shape.take l.length = l ∧
      (asTensorShapeList l).shape.drop l.length = List.replicate (4 - l.length) 1 ∧
      (asTensorShapeList l).toList = l) := by
  constructor
  · intro h
    have : asTensorShapeList l = { shape := l.take 4, size := 4 } := by
      unfold asTensorShapeList
      rw [if_pos h]
    rw [this]
    refine ⟨rfl, rfl, ?_⟩
    simp [TensorShape.toList, List.take_take]
  · intro h
    have hnot : ¬ l.length > 4 := not_lt.mpr h
    have hrew : asTensorShapeList l
        = { shape := (l ++ List.replicate 4 1).take 4, size := l.length } := by
      unfold asTensorShapeList
      rw [if_neg hnot]
    rw [hrew]
    refine ⟨rfl, take_pad_cancel l h, ?_, take_pad_cancel l h⟩
    rw [List.drop_take, List.drop_append_of_le_length (le_refl _), List.drop_length]
    rw [show ((List.nil : List Int) ++ List.replicate 4 1) = List.replicate 4 1 from rfl]
    rw [List.take_replicate, Nat.min_eq_left (Nat.sub_le 4 l.length)]

/-- Witness for C5 at the concrete inputs `[5, 6, 7, 8, 9]` (length 5) and
`[1, 2, 3]` (length 3). -/
theorem as_tensor_shape_normalizes_witness :
    ((asTensorShapeList [5, 6, 7, 8, 9]).size = 4 ∧
      (asTensorShapeList [5, 6, 7, 8, 9]).shape = [(5 : Int), 6, 7, 8, 9].take 4 ∧
      (asTensorShapeList [5, 6, 7, 8, 9]).toList = [(5 : Int), 6, 7, 8, 9].take 4) ∧
    ((asTensorShapeList [1, 2, 3]).size = [(1 : Int), 2, 3].length ∧
      (asTensorShapeList [1, 2, 3]).shape.take [(1 : Int), 2, 3].length = [1, 2, 3] ∧
      (asTensorShapeList [1, 2, 3]).shape.drop [(1 : Int), 2, 3].length
        = List.replicate (4 - [(1 : Int), 2, 3].length) 1 ∧
      (asTensorShapeList [1, 2, 3]).toList = [1, 2, 3]) :=
  ⟨(as_tensor_shape_normalizes [5, 6, 7, 8, 9]).1 (by decide),
   (as_tensor_shape_normalizes [1, 2, 3]).2 (by decide)⟩

/-- C6: `Ref`/`RefMut` force the ownership predicates to borrowed while
inheriting `host()`/`device()` from the wrapped descriptor; `Host`/`Device`
are owned; the `MutableTensorType` bound holds exactly for owned
descriptors and `RefMut` wrappers, and never for `Ref` wrappers. -/
theorem capability_composition_invariants (t : TensorTypeD) :
    (TensorTypeD.Ref t).owned = false ∧
    (TensorTypeD.Ref t).borrowed = true ∧
    (TensorTypeD.RefMut t).owned = false ∧
    (TensorTypeD.RefMut t).borrowed = true ∧
    (TensorTypeD.Ref t).host = t.host ∧
    (TensorTypeD.Ref t).device = t.device ∧
    (TensorTypeD.RefMut t).host = t.host ∧
    (TensorTypeD.RefMut t).device = t.device ∧
    (∀ h : HalideTy,
      (TensorTypeD.Host h).owned = true ∧ (TensorTypeD.Device h).owned = true) ∧
    (MutableTensorTypeP t ↔ (OwnedTensorTypeP t ∨ ∃ u, t = TensorTypeD.RefMut u)) ∧
    MutableTensorTypeP (TensorTypeD.RefMut t) ∧
    (MutableTensorTypeP (TensorTypeD.Ref t) ↔ False) := by
  refine ⟨rfl, rfl, rfl, rfl, rfl, rfl, rfl, rfl, fun _ => ⟨rfl, rfl⟩, ?_,
    MutableTensorTypeP.refMut t, ?_⟩
  · constructor
    · intro hm
      cases hm with
      | ofOwned ho => exact Or.inl ho
      | refMut u => exact Or.inr ⟨u, rfl⟩
    · intro hm
      cases hm with
      | inl ho => exact MutableTensorTypeP.ofOwned ho
      | inr he =>
        rcases he with ⟨u, rfl⟩
        exact MutableTensorTypeP.refMut u
  · constructor
    · intro hm
      cases hm with
      | ofOwned ho => cases ho
    · intro hf
      exact hf.elim

/-- C1: dropping a `Tensor<T>` handle calls the engine's destroy on its
buffer pointer exactly when `T` is one of the owned capabilities `Host`/
`Device`; dropping a `Ref`/`RefMut` handle leaves the engine state
untouched. -/
theorem drop_releases_iff_owned (p : Nat) (s : EngineState) :
    (∀ h, Tensor.drop ⟨TensorTypeD.Host h, p⟩ s = Tensor_destroy p s) ∧
    (∀ h, Tensor.drop ⟨TensorTypeD.Device h, p⟩ s = Tensor_destroy p s) ∧
    (∀ t, Tensor.drop ⟨TensorTypeD.Ref t, p⟩ s = s) ∧
    (∀ t, Tensor.drop ⟨TensorTypeD.RefMut t, p⟩ s = s) ∧
    (∀ T : TensorTypeD,
      (Tensor.drop ⟨T, p⟩ s).destroyLog
        = (if T.owned = true then p :: s.destroyLog else s.destroyLog)) ∧
    (∀ T : TensorTypeD, T.owned = true ↔ ∃ h, T = .Host h ∨ T = .Device h) := by
  refine ⟨fun _ => rfl, fun _ => rfl, fun _ => rfl, fun _ => rfl, ?_, ?_⟩
  · intro T
    cases hT : T.owned
    · simp [Tensor.drop, hT]
    · simp [Tensor.drop, hT, Tensor_destroy]
  · intro T
    cases T with
    | Host h =>
      simp only [TensorTypeD.owned, true_iff]
      exact ⟨h, Or.inl rfl⟩
    | Device h =>
      simp only [TensorTypeD.owned, true_iff]
      exact ⟨h, Or.inr rfl⟩
    | Ref t => simp [TensorTypeD.owned]
    | RefMut t => simp [TensorTypeD.owned]

/-- C3: both copy directions return `Err(TensorCopyFailed(code))` exactly
when the engine-reported status code indicates non-success (zero), with
the error carrying that very code, and `Ok(())` otherwise. -/
theorem copy_error_iff_engine_nonsuccess (self other : Tensor) (code : Int)
    (s : EngineState) :
    ((self.copy_from_host_tensor other code s).1
        = if code = 0 then Except.error (ErrorKind.TensorCopyFailed code)
          else Except.ok ()) ∧
    ((self.copy_to_host_tensor other code s).1
        = if code = 0 then Except.error (ErrorKind.TensorCopyFailed code)
          else Except.ok ()) ∧
    ((self.copy_from_host_tensor other code s).1
        = Except.error (ErrorKind.TensorCopyFailed code) ↔ code = 0) ∧
    ((self.copy_to_host_tensor other code s).1
        = Except.error (ErrorKind.TensorCopyFailed code) ↔ code = 0) := by
  by_cases hc : code = 0 <;>
    simp [Tensor.copy_from_host_tensor, Tensor.copy_to_host_tensor,
      Tensor_copyFromHostTensor, Tensor_copyToHostTensor, hc]

/-- C8: a `RawTensor`'s destructor always destroys the wrapped pointer;
`to_concrete` suppresses the erased handle's destructor and reuses the
same pointer, so the promote-then-drop lifecycle performs at most one
destroy on that pointer — never two. -/
theorem raw_tensor_single_release (p : Nat) (ty : TensorTypeD) (s : EngineState)
    (hp : p ≠ 0) :
    (RawTensor.drop ⟨p⟩ s).destroyLog.count p = s.destroyLog.count p + 1 ∧
    RawTensor.to_concrete ⟨p⟩ ty = some ⟨ty, p⟩ ∧
    ∃ s2, RawTensor.promoteAndDrop ⟨p⟩ ty s = some s2 ∧
      s2.destroyLog.count p ≤ s.destroyLog.count p + 1 := by
  have hbeq : (p == 0) = false := beq_false_of_ne hp
  refine ⟨?_, ?_, ?_⟩
  · simp [RawTensor.drop, Tensor_destroy]
  · simp [RawTensor.to_concrete, Tensor.from_ptr, hbeq]
  · refine ⟨Tensor.drop ⟨ty, p⟩ s, ?_, ?_⟩
    · simp [RawTensor.promoteAndDrop, RawTensor.to_concrete, Tensor.from_ptr, hbeq]
    · unfold Tensor.drop
      cases hT : TensorTypeD.owned ty
      · simp
      · simp [Tensor_destroy]

/-- Witness for C8 at pointer `1`, capability `Host<f32>`, the initial
engine state. -/
theorem raw_tensor_single_release_witness :
    (RawTensor.drop ⟨1⟩ ⟨[], [], 1, [], []⟩).destroyLog.count 1
        = ((⟨[], [], 1, [], []⟩ : EngineState).destroyLog.count 1) + 1 ∧
    RawTensor.to_concrete ⟨1⟩ (.Host .f32) = some ⟨.Host .f32, 1⟩ ∧
    ∃ s2, RawTensor.promoteAndDrop ⟨1⟩ (.Host .f32) ⟨[], [], 1, [], []⟩ = some s2 ∧
      s2.destroyLog.count 1 ≤ ((⟨[], [], 1, [], []⟩ : EngineState).destroyLog.count 1) + 1 :=
  raw_tensor_single_release 1 (.Host .f32) ⟨[], [], 1, [], []⟩ (by decide)

/-- C2: `try_host`/`try_host_mut` compare the buffer's runtime element-type
tag against `H` before any view is built: a disagreeing tag yields the
`HalideTypeMismatch` error carrying `H`'s type name (the embedding's error
branch constructs no view), and an agreeing tag yields `Ok` with the host
slice, whose length equals the buffer's element count. -/
theorem try_host_checks_type_tag (t : Tensor) (s : EngineState) (b : MnnBuffer)
    (hb : s.lookupBuf t.tensor = some b)
    (hlen : (b.hostData s).length = b.elemCount) :
    t.try_host s
      = (if b.htype = halide_type_of t.ty.elemTy
         then Except.ok (b.hostData s)
         else Except.error (ErrorKind.HalideTypeMismatch t.ty.elemTy.typeName)) ∧
    t.try_host_mut s
      = (if b.htype = halide_type_of t.ty.elemTy
         then Except.ok (b.hostData s)
         else Except.error (ErrorKind.HalideTypeMismatch t.ty.elemTy.typeName)) ∧
    (b.hostData s).length = b.elemCount := by
  have hsz : t.element_size s = b.elemCount := by
    simp [Tensor.element_size, Tensor_elementSize, hb]
  have hho : Tensor_host t.tensor s = b.hostData s := by
    simp [Tensor_host, hb]
  have htake : (b.hostData s).take b.elemCount = b.hostData s := by
    rw [← hlen]
    exact List.take_length _
  by_cases hty : b.htype = halide_type_of t.ty.elemTy
  · have hto : t.is_type_of t.ty.elemTy s = true := by
      simp [Tensor.is_type_of, Tensor_isTypeOf, hb, hty]
    refine ⟨?_, ?_, hlen⟩ <;>
      simp [Tensor.try_host, Tensor.try_host_mut, hto, hsz, hho, htake, if_pos hty]
  · have hto : t.is_type_of t.ty.elemTy s = false := by
      simp [Tensor.is_type_of, Tensor_isTypeOf, hb]
      exact hty
    refine ⟨?_, ?_, hlen⟩ <;>
      simp [Tensor.try_host, Tensor.try_host_mut, hto, if_neg hty]

/-- Witness for C2: a buffer of two `f32` elements; reading it as `f32`
succeeds with a slice of length 2, reading it as `i32` fails with the
mismatch error. -/
theorem try_host_checks_type_tag_witness :
    ((⟨.Host .i32, 1⟩ : Tensor).try_host
        ⟨[(1, ⟨[2], .CAFFE, ⟨2, 32, 1⟩, .own [0, 0]⟩)], [], 2, [], []⟩
      = (if (⟨2, 32, 1⟩ : halide_type_t)
            = halide_type_of (TensorTypeD.Host HalideTy.i32).elemTy
         then Except.ok ((⟨[2], .CAFFE, ⟨2, 32, 1⟩, .own [0, 0]⟩ : MnnBuffer).hostData
            ⟨[(1, ⟨[2], .CAFFE, ⟨2, 32, 1⟩, .own [0, 0]⟩)], [], 2, [], []⟩)
         else Except.error (ErrorKind.HalideTypeMismatch
            (TensorTypeD.Host HalideTy.i32).elemTy.typeName)) ∧
      (⟨.Host .i32, 1⟩ : Tensor).try_host_mut
        ⟨[(1, ⟨[2], .CAFFE, ⟨2, 32, 1⟩, .own [0, 0]⟩)], [], 2, [], []⟩
      = (if (⟨2, 32, 1⟩ : halide_type_t)
            = halide_type_of (TensorTypeD.Host HalideTy.i32).elemTy
         then Except.ok ((⟨[2], .CAFFE, ⟨2, 32, 1⟩, .own [0, 0]⟩ : MnnBuffer).hostData
            ⟨[(1, ⟨[2], .CAFFE, ⟨2, 32, 1⟩, .own [0, 0]⟩)], [], 2, [], []⟩)
         else Except.error (ErrorKind.HalideTypeMismatch
            (TensorTypeD.Host HalideTy.i32).elemTy.typeName)) ∧
      ((⟨[2], .CAFFE, ⟨2, 32, 1⟩, .own [0, 0]⟩ : MnnBuffer).hostData
          ⟨[(1, ⟨[2], .CAFFE, ⟨2, 32, 1⟩, .own [0, 0]⟩)], [], 2, [], []⟩).length
        = (⟨[2], .CAFFE, ⟨2, 32, 1⟩, .own [0, 0]⟩ : MnnBuffer).elemCount) ∧
    ((⟨.Host .f32, 1⟩ : Tensor).try_host
        ⟨[(1, ⟨[2], .CAFFE, ⟨2, 32, 1⟩, .own [0, 0]⟩)], [], 2, [], []⟩
      = (if (⟨2, 32, 1⟩ : halide_type_t)
            = halide_type_of (TensorTypeD.Host HalideTy.f32).elemTy
         then Except.ok ((⟨[2], .CAFFE, ⟨2, 32, 1⟩, .own [0, 0]⟩ : MnnBuffer).hostData
            ⟨[(1, ⟨[2], .CAFFE, ⟨2, 32, 1⟩, .own [0, 0]⟩)], [], 2, [], []⟩)
         else Except.error (ErrorKind.HalideTypeMismatch
            (TensorTypeD.Host HalideTy.f32).elemTy.typeName)) ∧
      (⟨.Host .f32, 1⟩ : Tensor).try_host_mut
        ⟨[(1, ⟨[2], .CAFFE, ⟨2, 32, 1⟩, .own [0, 0]⟩)], [], 2, [], []⟩
      = (if (⟨2, 32, 1⟩ : halide_type_t)
            = halide_type_of (TensorTypeD.Host HalideTy.f32).elemTy
         then Except.ok ((⟨[2], .CAFFE, ⟨2, 32, 1⟩, .own [0, 0]⟩ : MnnBuffer).hostData
            ⟨[(1, ⟨[2], .CAFFE, ⟨2, 32, 1⟩, .own [0, 0]⟩)], [], 2, [], []⟩)
         else Except.error (ErrorKind.HalideTypeMismatch
            (TensorTypeD.Host HalideTy.f32).elemTy.typeName)) ∧
      ((⟨[2], .CAFFE, ⟨2, 32, 1⟩, .own [0, 0]⟩ : MnnBuffer).hostData
          ⟨[(1, ⟨[2], .CAFFE, ⟨2, 32, 1⟩, .own [0, 0]⟩)], [], 2, [], []⟩).length
        = (⟨[2], .CAFFE, ⟨2, 32, 1⟩, .own [0, 0]⟩ : MnnBuffer).elemCount) :=
  ⟨try_host_checks_type_tag ⟨.Host .i32, 1⟩
      ⟨[(1, ⟨[2], .CAFFE, ⟨2, 32, 1⟩, .own [0, 0]⟩)], [], 2, [], []⟩
      ⟨[2], .CAFFE, ⟨2, 32, 1⟩, .own [0, 0]⟩ rfl rfl,
   try_host_checks_type_tag ⟨.Host .f32, 1⟩
      ⟨[(1, ⟨[2], .CAFFE, ⟨2, 32, 1⟩, .own [0, 0]⟩)], [], 2, [], []⟩
      ⟨[2], .CAFFE, ⟨2, 32, 1⟩, .own [0, 0]⟩ rfl rfl⟩

/-- C7 counterexample: constructing an owned host tensor with the
TensorFlow layout yields a buffer whose recorded layout is Caffe — the
host allocation path of `Tensor::new` passes
`DimensionType::Caffe.to_mnn_sys()` instead of `dm_type` to the engine, so
the claim "the requested dimension layout dm_type (for both host-location
and device-location capabilities)" fails at this input. -/
theorem tensor_new_host_layout_counterexample :
    ∃ t s1 b,
      Tensor.newList (.Host .f32) [2, 3] .TensorFlow ⟨[], [], 1, [], []⟩
        = some (t, s1) ∧
      s1.lookupBuf t.tensor = some b ∧
      b.dimType = MnnSysDimensionType.CAFFE ∧
      b.dimType ≠ DimensionType.TensorFlow.to_mnn_sys :=
  ⟨⟨.Host .f32, 1⟩,
   ⟨[(1, ⟨[2, 3], .CAFFE, ⟨2, 32, 1⟩, .own (List.replicate 6 0)⟩)], [], 2, [],
    [(1, ⟨[2, 3], .CAFFE, ⟨2, 32, 1⟩, .own (List.replicate 6 0)⟩)]⟩,
   ⟨[2, 3], .CAFFE, ⟨2, 32, 1⟩, .own (List.replicate 6 0)⟩,
   rfl, rfl, rfl, by decide⟩

/-- C7 amended: `Tensor::new(shape, dm_type)` allocates a fresh non-null
foreign buffer with the requested element type and the normalized shape;
the layout recorded for the buffer is `dm_type` for device-location
capabilities, but always Caffe for host-location capabilities (the host
branch ignores `dm_type`). -/
theorem tensor_new_allocation (ty : TensorTypeD) (dims : List Int)
    (dm : DimensionType) (s : EngineState)
    (hown : OwnedTensorTypeP ty) (hnext : s.next ≠ 0) :
    ∃ t s1 b, Tensor.newList ty dims dm s = some (t, s1) ∧
      t.ty = ty ∧ t.tensor = s.next ∧ t.tensor ≠ 0 ∧
      s1.lookupBuf t.tensor = some b ∧
      s1.createLog = (t.tensor, b) :: s.createLog ∧
      b.htype = halide_type_of ty.elemTy ∧
      b.dims = (asTensorShapeList dims).toList ∧
      b.dimType = (if ty.device = true then dm.to_mnn_sys
                   else MnnSysDimensionType.CAFFE) := by
  have hbeq : (s.next == 0) = false := beq_false_of_ne hnext
  cases hdev : ty.device with
  | true =>
    refine ⟨⟨ty, s.next⟩,
      { s with
        bufs := (s.next, ⟨(asTensorShapeList dims).toList, dm.to_mnn_sys,
          halide_type_of ty.elemTy,
          .dev (List.replicate (((asTensorShapeList dims).toList.map Int.toNat).prod) 0)⟩)
            :: s.bufs
        next := s.next + 1
        createLog := (s.next, ⟨(asTensorShapeList dims).toList, dm.to_mnn_sys,
          halide_type_of ty.elemTy,
          .dev (List.replicate (((asTensorShapeList dims).toList.map Int.toNat).prod) 0)⟩)
            :: s.createLog },
      ⟨(asTensorShapeList dims).toList, dm.to_mnn_sys, halide_type_of ty.elemTy,
        .dev (List.replicate (((asTensorShapeList dims).toList.map Int.toNat).prod) 0)⟩,
      ?_, rfl, rfl, hnext, ?_, rfl, rfl, rfl, ?_⟩
    · unfold Tensor.newList Tensor.new
      rw [hdev]
      simp [Tensor_createDevice, hbeq, TensorShape.toList, asTensorShapeShape]
    · simp [EngineState.lookupBuf]
    · simp
  | false =>
    refine ⟨⟨ty, s.next⟩,
      { s with
        bufs := (s.next, ⟨(asTensorShapeList dims).toList, .CAFFE,
          halide_type_of ty.elemTy,
          .own (List.replicate (((asTensorShapeList dims).toList.map Int.toNat).prod) 0)⟩)
            :: s.bufs
        next := s.next + 1
        createLog := (s.next, ⟨(asTensorShapeList dims).toList, .CAFFE,
          halide_type_of ty.elemTy,
          .own (List.replicate (((asTensorShapeList dims).toList.map Int.toNat).prod) 0)⟩)
            :: s.createLog },
      ⟨(asTensorShapeList dims).toList, .CAFFE, halide_type_of ty.elemTy,
        .own (List.replicate (((asTensorShapeList dims).toList.map Int.toNat).prod) 0)⟩,
      ?_, rfl, rfl, hnext, ?_, rfl, rfl, rfl, ?_⟩
    · unfold Tensor.newList Tensor.new
      rw [hdev]
      simp [Tensor_createWith, hbeq, TensorShape.toList, asTensorShapeShape,
        DimensionType.to_mnn_sys]
    · simp [EngineState.lookupBuf]
    · simp

/-- Witness for the amended C7 at a concrete device-capability input. -/
theorem tensor_new_allocation_witness :
    ∃ t s1 b,
      Tensor.newList (.Device .f32) [2, 3] .TensorFlow ⟨[], [], 1, [], []⟩
        = some (t, s1) ∧
      t.ty = TensorTypeD.Device HalideTy.f32 ∧
      t.tensor = (⟨[], [], 1, [], []⟩ : EngineState).next ∧
      t.tensor ≠ 0 ∧
      s1.lookupBuf t.tensor = some b ∧
      s1.createLog = (t.tensor, b) :: (⟨[], [], 1, [], []⟩ : EngineState).createLog ∧
      b.htype = halide_type_of (TensorTypeD.Device HalideTy.f32).elemTy ∧
      b.dims = (asTensorShapeList [2, 3]).toList ∧
      b.dimType = (if (TensorTypeD.Device HalideTy.f32).device = true
                   then DimensionType.TensorFlow.to_mnn_sys
                   else MnnSysDimensionType.CAFFE) :=
  tensor_new_allocation (.Device .f32) [2, 3] .TensorFlow ⟨[], [], 1, [], []⟩
    (.device .f32) (by decide)

/-- Filling through the mutable host pointer of a handle whose buffer
aliases caller memory `e` lands in that caller memory. -/
theorem fillHostBranch_ali (t : Tensor) (s : EngineState) (b : MnnBuffer) (e : Nat)
    (v : Int) (d : List Int)
    (hb : s.lookupBuf t.tensor = some b)
    (hst : b.store = Storage.ali e)
    (hty : b.htype = halide_type_of t.ty.elemTy)
    (hd : s.mem.lookup e = some d)
    (hdlen : d.length = b.elemCount) :
    ∃ s2, t.fillHostBranch v s = some s2 ∧
      s2.lookupMem e = List.replicate b.elemCount v := by
  have hsz : t.element_size s = b.elemCount := by
    simp [Tensor.element_size, Tensor_elementSize, hb]
  have hto : t.is_type_of t.ty.elemTy s = true := by
    simp [Tensor.is_type_of, Tensor_isTypeOf, hb, hty]
  have hlm : s.lookupMem e = d := by
    simp [EngineState.lookupMem, hd]
  have hw := writeHostData_eq t.tensor (List.replicate (t.element_size s) v) s b hb
  rw [hst] at hw
  have hw2 : writeHostData t.tensor (List.replicate (t.element_size s) v) s
      = s.updateMem e (writeList (List.replicate (t.element_size s) v) (s.lookupMem e)) :=
    hw
  refine ⟨s.updateMem e (writeList (List.replicate (t.element_size s) v) (s.lookupMem e)),
    ?_, ?_⟩
  · unfold Tensor.fillHostBranch
    rw [hto]
    simp [hw2]
  · rw [lookupMem_updateMem_self s e _ (by rw [hd]; rfl)]
    rw [hlm, hsz, writeList_full hdlen]

/-- C10: `Tensor::borrowed` and `Tensor::borrowed_mut` always hand the
engine the Caffe (NCHW) layout — the API exposes no layout choice — and
pass the caller slice's pointer as the data argument, so the buffer
aliases the caller's memory (no copy); consequently a fill through the
mutable host pointer of the borrowed handle is visible in the caller's
original buffer. -/
theorem borrowed_always_caffe_aliasing
    (ty : TensorTypeD) (shape0 : TensorShape) (e : Nat) (s : EngineState)
    (v code : Int) (d : List Int)
    (hnext : s.next ≠ 0)
    (hhost : ty.host = true)
    (hd : s.mem.lookup e = some d)
    (hdlen : d.length = ((shape0.shape.take shape0.size).map Int.toNat).prod) :
    ∃ t s1 b,
      Tensor.borrowed ty shape0 e s = some (t, s1) ∧
      Tensor.borrowed_mut ty shape0 e s = some (t, s1) ∧
      s1.lookupBuf t.tensor = some b ∧
      b.dimType = MnnSysDimensionType.CAFFE ∧
      b.store = Storage.ali e ∧
      b.htype = halide_type_of ty.elemTy ∧
      (∃ s2, Tensor.fill t v code s1 = some s2 ∧
        s2.lookupMem e = List.replicate b.elemCount v ∧
        b.elemCount = d.length) := by
  have hbeq : (s.next == 0) = false := beq_false_of_ne hnext
  refine ⟨⟨ty, s.next⟩,
    { s with
      bufs := (s.next, ⟨shape0.shape.take shape0.size, .CAFFE,
        halide_type_of ty.elemTy, .ali e⟩) :: s.bufs
      next := s.next + 1
      createLog := (s.next, ⟨shape0.shape.take shape0.size, .CAFFE,
        halide_type_of ty.elemTy, .ali e⟩) :: s.createLog },
    ⟨shape0.shape.take shape0.size, .CAFFE, halide_type_of ty.elemTy, .ali e⟩,
    ?_, ?_, ?_, rfl, rfl, rfl, ?_⟩
  · unfold Tensor.borrowed
    simp [Tensor_createWith, hbeq, asTensorShapeShape, DimensionType.to_mnn_sys]
  · unfold Tensor.borrowed_mut
    simp [Tensor_createWith, hbeq, asTensorShapeShape, DimensionType.to_mnn_sys]
  · simp [EngineState.lookupBuf]
  · have hfill : Tensor.fill ⟨ty, s.next⟩ v code
        { s with
          bufs := (s.next, ⟨shape0.shape.take shape0.size, .CAFFE,
            halide_type_of ty.elemTy, .ali e⟩) :: s.bufs
          next := s.next + 1
          createLog := (s.next, ⟨shape0.shape.take shape0.size, .CAFFE,
            halide_type_of ty.elemTy, .ali e⟩) :: s.createLog }
        = Tensor.fillHostBranch ⟨ty, s.next⟩ v
        { s with
          bufs := (s.next, ⟨shape0.shape.take shape0.size, .CAFFE,
            halide_type_of ty.elemTy, .ali e⟩) :: s.bufs
          next := s.next + 1
          createLog := (s.next, ⟨shape0.shape.take shape0.size, .CAFFE,
            halide_type_of ty.elemTy, .ali e⟩) :: s.createLog } := by
      unfold Tensor.fill
      rw [show (⟨ty, s.next⟩ : Tensor).ty = ty from rfl, hhost]
      simp
    rw [hfill]
    rcases fillHostBranch_ali ⟨ty, s.next⟩
      { s with
        bufs := (s.next, ⟨shape0.shape.take shape0.size, .CAFFE,
          halide_type_of ty.elemTy, .ali e⟩) :: s.bufs
        next := s.next + 1
        createLog := (s.next, ⟨shape0.shape.take shape0.size, .CAFFE,
          halide_type_of ty.elemTy, .ali e⟩) :: s.createLog }
      ⟨shape0.shape.take shape0.size, .CAFFE, halide_type_of ty.elemTy, .ali e⟩
      e v d (by simp [EngineState.lookupBuf]) rfl rfl hd hdlen
      with ⟨s2, hs2, hmem2⟩
    exact ⟨s2, hs2, hmem2, hdlen.symm⟩

/-- Witness for C10: a `RefMut<Host<f32>>` handle borrowed over a caller
slice of six elements at external address 5, then filled with 7. -/
theorem borrowed_always_caffe_aliasing_witness :
    ∃ t s1 b,
      Tensor.borrowed (.RefMut (.Host .f32)) ⟨[1, 2, 3, 1], 3⟩ 5
        ⟨[], [(5, [9, 9, 9, 9, 9, 9])], 1, [], []⟩ = some (t, s1) ∧
      Tensor.borrowed_mut (.RefMut (.Host .f32)) ⟨[1, 2, 3, 1], 3⟩ 5
        ⟨[], [(5, [9, 9, 9, 9, 9, 9])], 1, [], []⟩ = some (t, s1) ∧
      s1.lookupBuf t.tensor = some b ∧
      b.dimType = MnnSysDimensionType.CAFFE ∧
      b.store = Storage.ali 5 ∧
      b.htype = halide_type_of (TensorTypeD.RefMut (.Host .f32)).elemTy ∧
      (∃ s2, Tensor.fill t 7 0 s1 = some s2 ∧
        s2.lookupMem 5 = List.replicate b.elemCount 7 ∧
        b.elemCount = [(9 : Int), 9, 9, 9, 9, 9].length) :=
  borrowed_always_caffe_aliasing (.RefMut (.Host .f32)) ⟨[1, 2, 3, 1], 3⟩ 5
    ⟨[], [(5, [9, 9, 9, 9, 9, 9])], 1, [], []⟩ 7 0 [9, 9, 9, 9, 9, 9]
    (by decide) (by decide) rfl (by decide)

/-- Filling through the mutable host pointer of a handle whose buffer owns
its host storage overwrites that storage with the fill value. -/
theorem fillHostBranch_own (t : Tensor) (s : EngineState) (b : MnnBuffer)
    (dd : List Int) (v : Int)
    (hb : s.lookupBuf t.tensor = some b)
    (hst : b.store = Storage.own dd)
    (hty : b.htype = halide_type_of t.ty.elemTy)
    (hdlen : dd.length = b.elemCount) :
    t.fillHostBranch v s
      = some (s.updateBuf t.tensor
          { b with store := Storage.own (List.replicate b.elemCount v) }) := by
  have hsz : t.element_size s = b.elemCount := by
    simp [Tensor.element_size, Tensor_elementSize, hb]
  have hto : t.is_type_of t.ty.elemTy s = true := by
    simp [Tensor.is_type_of, Tensor_isTypeOf, hb, hty]
  have hw := writeHostData_eq t.tensor (List.replicate (t.element_size s) v) s b hb
  rw [hst] at hw
  have hw2 : writeHostData t.tensor (List.replicate (t.element_size s) v) s
      = s.updateBuf t.tensor
          { b with store := Storage.own (writeList (List.replicate (t.element_size s) v) dd) } :=
    hw
  unfold Tensor.fillHostBranch
  rw [hto]
  simp only [if_true]
  rw [hw2, hsz, writeList_full hdlen]

/-- Writing through a host pointer never changes the creation log, the
destroy log, the fresh-pointer counter, or the external memory map keys it
does not target. -/
theorem writeHostData_frame (p : Nat) (new : List Int) (s : EngineState) :
    (writeHostData p new s).createLog = s.createLog ∧
    (writeHostData p new s).destroyLog = s.destroyLog ∧
    (writeHostData p new s).next = s.next := by
  cases hp : s.lookupBuf p with
  | none =>
    have hw : writeHostData p new s = s := by
      unfold writeHostData
      rw [hp]
    rw [hw]
    exact ⟨rfl, rfl, rfl⟩
  | some b =>
    have hw := writeHostData_eq p new s b hp
    cases hst : b.store with
    | own d =>
      rw [hst] at hw
      have hw2 : writeHostData p new s
          = s.updateBuf p { b with store := Storage.own (writeList new d) } := hw
      rw [hw2]
      exact ⟨rfl, rfl, rfl⟩
    | ali e =>
      rw [hst] at hw
      have hw2 : writeHostData p new s
          = s.updateMem e (writeList new (s.lookupMem e)) := hw
      rw [hw2]
      exact ⟨rfl, rfl, rfl⟩
    | dev d =>
      rw [hst] at hw
      have hw2 : writeHostData p new s
          = s.updateBuf p { b with store := Storage.dev (writeList new d) } := hw
      rw [hw2]
      exact ⟨rfl, rfl, rfl⟩

/-- Destroying one buffer does not change what another buffer's host
pointer reads. -/
theorem Tensor_host_destroy_ne (p q : Nat) (s : EngineState) (hpq : p ≠ q) :
    Tensor_host p (Tensor_destroy q s) = Tensor_host p s := by
  unfold Tensor_host
  rw [lookupBuf_destroy_ne s p q hpq]
  cases hl : s.lookupBuf p with
  | none => rfl
  | some b =>
    cases hst : b.store with
    | own d => simp [MnnBuffer.hostData, hst]
    | ali e => simp [MnnBuffer.hostData, hst, Tensor_destroy, EngineState.lookupMem]
    | dev d => simp [MnnBuffer.hostData, hst]

/-- C4 counterexample: filling a device tensor whose layout is TensorFlow
creates its temporary host staging tensor with the Caffe layout (observed
in the creation log), not "the same ... layout" the claim states — the
host allocation path of `Tensor::new` ignores the requested layout. -/
theorem fill_device_layout_counterexample :
    ∃ s1 b,
      Tensor.fill ⟨.Device .f32, 7⟩ 5 1
          ⟨[(7, ⟨[2], .TENSORFLOW, ⟨2, 32, 1⟩, .dev [0, 0]⟩)], [], 8, [], []⟩
        = some s1 ∧
      s1.createLog = [(8, b)] ∧
      b.dims = (⟨[2], .TENSORFLOW, ⟨2, 32, 1⟩, .dev [0, 0]⟩ : MnnBuffer).dims ∧
      b.dimType = MnnSysDimensionType.CAFFE ∧
      (⟨[2], .TENSORFLOW, ⟨2, 32, 1⟩, .dev [0, 0]⟩ : MnnBuffer).dimType
        = MnnSysDimensionType.TENSORFLOW ∧
      MnnSysDimensionType.CAFFE ≠ MnnSysDimensionType.TENSORFLOW :=
  ⟨⟨[(7, ⟨[2], .TENSORFLOW, ⟨2, 32, 1⟩, .dev [5, 5]⟩)], [], 9, [8],
    [(8, ⟨[2], .CAFFE, ⟨2, 32, 1⟩, .own [0, 0]⟩)]⟩,
   ⟨[2], .CAFFE, ⟨2, 32, 1⟩, .own [0, 0]⟩,
   rfl, rfl, rfl, rfl, rfl, by decide⟩

theorem Tensor_destroy_createLog (q : Nat) (x : EngineState) :
    (Tensor_destroy q x).createLog = x.createLog := rfl

theorem Tensor_destroy_destroyLog (q : Nat) (x : EngineState) :
    (Tensor_destroy q x).destroyLog = q :: x.destroyLog := rfl

/-- A zero engine status makes `copy_from_host_tensor` return the
`TensorCopyFailed` error and leave the state unchanged. -/
theorem copy_from_host_tensor_fail (self other : Tensor) (s : EngineState) :
    self.copy_from_host_tensor other 0 s
      = (Except.error (ErrorKind.TensorCopyFailed 0), s) := by
  unfold Tensor.copy_from_host_tensor Tensor_copyFromHostTensor
  simp

/-- A non-zero engine status makes `copy_from_host_tensor` return `Ok` and
perform the staged copy. -/
theorem copy_from_host_tensor_ok (self other : Tensor) (code : Int)
    (hc : code ≠ 0) (s : EngineState) :
    self.copy_from_host_tensor other code s
      = (Except.ok (), writeHostData self.tensor (Tensor_host other.tensor s) s) := by
  unfold Tensor.copy_from_host_tensor Tensor_copyFromHostTensor
  have hbne : (code != 0) = true := by simp [hc]
  rw [hbne]
  simp [hc]

/-- C4 amended: `fill(value)` on a host-location handle asserts that the
buffer's runtime tag matches `H` (a mismatch is fatal, not an error) and
then writes `value` to all element-count elements of the host slice; on a
device-location handle it allocates a temporary owned host tensor of the
same shape — requesting the device tensor's layout, though the host
allocation path creates the buffer with the Caffe layout — fills that
host tensor with `value`, copies it into the device buffer via
`copy_from_host_tensor`, treats a copy failure as fatal, and releases the
temporary. -/
theorem fill_semantics (t : Tensor) (value code : Int) (s : EngineState)
    (b : MnnBuffer)
    (hmut : MutableTensorTypeP t.ty)
    (hb : s.lookupBuf t.tensor = some b)
    (hlen : (b.hostData s).length = b.elemCount)
    (hmem : ∀ e, b.store = Storage.ali e → (s.mem.lookup e).isSome = true)
    (hdims : b.dims.length ≤ 4)
    (hfresh : t.tensor ≠ s.next)
    (hnext : s.next ≠ 0) :
    (t.ty.host = true → b.htype ≠ halide_type_of t.ty.elemTy →
      t.fill value code s = none) ∧
    (t.ty.host = true → b.htype = halide_type_of t.ty.elemTy →
      ∃ s1, t.fill value code s = some s1 ∧
        Tensor_host t.tensor s1 = List.replicate b.elemCount value) ∧
    (t.ty.host = false → code = 0 → t.fill value code s = none) ∧
    (t.ty.host = false → code ≠ 0 →
      ∃ s1 btemp, t.fill value code s = some s1 ∧
        s1.createLog = (s.next, btemp) :: s.createLog ∧
        btemp.dims = b.dims ∧
        btemp.htype = halide_type_of t.ty.elemTy ∧
        btemp.dimType = MnnSysDimensionType.CAFFE ∧
        s1.destroyLog = s.next :: s.destroyLog ∧
        Tensor_host t.tensor s1 = List.replicate b.elemCount value) := by
  have hbeq : (s.next == 0) = false := beq_false_of_ne hnext
  have hsh : t.shape s
      = ⟨(b.dims ++ List.replicate 4 1).take 4, b.dims.length⟩ := by
    simp [Tensor.shape, Tensor_shape, hb]
  have htakeD := take_pad_cancel b.dims hdims
  have hnew : Tensor.new (.Host t.ty.elemTy) (t.shape s) (t.get_dimension_type s) s
      = some (⟨.Host t.ty.elemTy, s.next⟩,
        { s with
          bufs := (s.next, ⟨b.dims, .CAFFE, halide_type_of t.ty.elemTy,
            .own (List.replicate ((b.dims.map Int.toNat).prod) 0)⟩) :: s.bufs
          next := s.next + 1
          createLog := (s.next, ⟨b.dims, .CAFFE, halide_type_of t.ty.elemTy,
            .own (List.replicate ((b.dims.map Int.toNat).prod) 0)⟩) :: s.createLog }) := by
    rw [hsh]
    unfold Tensor.new
    simp only [asTensorShapeShape, TensorTypeD.device, TensorTypeD.host,
      Bool.not_true, Bool.false_eq_true, if_false, Tensor_createWith, hbeq,
      DimensionType.to_mnn_sys, Option.some.injEq, Prod.mk.injEq]
    refine ⟨trivial, ?_⟩
    simp [htakeD]
    constructor
    · exact htakeD
    · have hlm : (List.map Int.toNat b.dims).length = b.dims.length := by
        simp
      rw [← hlm]
      rw [take_pad_cancel_gen (List.map Int.toNat b.dims) _ (by rw [hlm]; exact hdims)]
      exact ⟨rfl, rfl⟩
  have hbA : EngineState.lookupBuf
      { s with
        bufs := (s.next, ⟨b.dims, .CAFFE, halide_type_of t.ty.elemTy,
          .own (List.replicate ((b.dims.map Int.toNat).prod) 0)⟩) :: s.bufs
        next := s.next + 1
        createLog := (s.next, ⟨b.dims, .CAFFE, halide_type_of t.ty.elemTy,
          .own (List.replicate ((b.dims.map Int.toNat).prod) 0)⟩) :: s.createLog }
      t.tensor = some b := by
    simp only [EngineState.lookupBuf, List.lookup_cons, beq_false_of_ne hfresh]
    exact hb
  have hfT := fillHostBranch_own ⟨.Host t.ty.elemTy, s.next⟩
    { s with
      bufs := (s.next, ⟨b.dims, .CAFFE, halide_type_of t.ty.elemTy,
        .own (List.replicate ((b.dims.map Int.toNat).prod) 0)⟩) :: s.bufs
      next := s.next + 1
      createLog := (s.next, ⟨b.dims, .CAFFE, halide_type_of t.ty.elemTy,
        .own (List.replicate ((b.dims.map Int.toNat).prod) 0)⟩) :: s.createLog }
    ⟨b.dims, .CAFFE, halide_type_of t.ty.elemTy,
      .own (List.replicate ((b.dims.map Int.toNat).prod) 0)⟩
    (List.replicate ((b.dims.map Int.toNat).prod) 0) value
    (by simp [EngineState.lookupBuf]) rfl rfl (by simp [MnnBuffer.elemCount])
  have hfT2 : (⟨.Host t.ty.elemTy, s.next⟩ : Tensor).fillHostBranch value
      { s with
        bufs := (s.next, ⟨b.dims, .CAFFE, halide_type_of t.ty.elemTy,
          .own (List.replicate ((b.dims.map Int.toNat).prod) 0)⟩) :: s.bufs
        next := s.next + 1
        createLog := (s.next, ⟨b.dims, .CAFFE, halide_type_of t.ty.elemTy,
          .own (List.replicate ((b.dims.map Int.toNat).prod) 0)⟩) :: s.createLog }
      = some (EngineState.updateBuf
        { s with
          bufs := (s.next, ⟨b.dims, .CAFFE, halide_type_of t.ty.elemTy,
            .own (List.replicate ((b.dims.map Int.toNat).prod) 0)⟩) :: s.bufs
          next := s.next + 1
          createLog := (s.next, ⟨b.dims, .CAFFE, halide_type_of t.ty.elemTy,
            .own (List.replicate ((b.dims.map Int.toNat).prod) 0)⟩) :: s.createLog }
        s.next
        ⟨b.dims, .CAFFE, halide_type_of t.ty.elemTy,
          .own (List.replicate ((b.dims.map Int.toNat).prod) value)⟩) := hfT
  have hbB : (EngineState.updateBuf
      { s with
        bufs := (s.next, ⟨b.dims, .CAFFE, halide_type_of t.ty.elemTy,
          .own (List.replicate ((b.dims.map Int.toNat).prod) 0)⟩) :: s.bufs
        next := s.next + 1
        createLog := (s.next, ⟨b.dims, .CAFFE, halide_type_of t.ty.elemTy,
          .own (List.replicate ((b.dims.map Int.toNat).prod) 0)⟩) :: s.createLog }
      s.next
      ⟨b.dims, .CAFFE, halide_type_of t.ty.elemTy,
        .own (List.replicate ((b.dims.map Int.toNat).prod) value)⟩).lookupBuf t.tensor
      = some b := by
    rw [lookupBuf_updateBuf_ne _ s.next t.tensor _ hfresh]
    exact hbA
  have hmemB : ∀ e, b.store = Storage.ali e →
      (((EngineState.updateBuf
        { s with
          bufs := (s.next, ⟨b.dims, .CAFFE, halide_type_of t.ty.elemTy,
            .own (List.replicate ((b.dims.map Int.toNat).prod) 0)⟩) :: s.bufs
          next := s.next + 1
          createLog := (s.next, ⟨b.dims, .CAFFE, halide_type_of t.ty.elemTy,
            .own (List.replicate ((b.dims.map Int.toNat).prod) 0)⟩) :: s.createLog }
        s.next
        ⟨b.dims, .CAFFE, halide_type_of t.ty.elemTy,
          .own (List.replicate ((b.dims.map Int.toNat).prod) value)⟩).mem.lookup e).isSome)
      = true := hmem
  have hhdB : b.hostData
      (EngineState.updateBuf
        { s with
          bufs := (s.next, ⟨b.dims, .CAFFE, halide_type_of t.ty.elemTy,
            .own (List.replicate ((b.dims.map Int.toNat).prod) 0)⟩) :: s.bufs
          next := s.next + 1
          createLog := (s.next, ⟨b.dims, .CAFFE, halide_type_of t.ty.elemTy,
            .own (List.replicate ((b.dims.map Int.toNat).prod) 0)⟩) :: s.createLog }
        s.next
        ⟨b.dims, .CAFFE, halide_type_of t.ty.elemTy,
          .own (List.replicate ((b.dims.map Int.toNat).prod) value)⟩)
      = b.hostData s := by
    cases hst : b.store with
    | own d => simp [MnnBuffer.hostData, hst]
    | ali e => simp [MnnBuffer.hostData, hst, EngineState.lookupMem, EngineState.updateBuf]
    | dev d => simp [MnnBuffer.hostData, hst]
  have hTt : Tensor_host s.next
      (EngineState.updateBuf
        { s with
          bufs := (s.next, ⟨b.dims, .CAFFE, halide_type_of t.ty.elemTy,
            .own (List.replicate ((b.dims.map Int.toNat).prod) 0)⟩) :: s.bufs
          next := s.next + 1
          createLog := (s.next, ⟨b.dims, .CAFFE, halide_type_of t.ty.elemTy,
            .own (List.replicate ((b.dims.map Int.toNat).prod) 0)⟩) :: s.createLog }
        s.next
        ⟨b.dims, .CAFFE, halide_type_of t.ty.elemTy,
          .own (List.replicate ((b.dims.map Int.toNat).prod) value)⟩)
      = List.replicate ((b.dims.map Int.toNat).prod) value := by
    unfold Tensor_host
    rw [lookupBuf_updateBuf_self _ s.next _ (by simp [EngineState.lookupBuf])]
    rfl
  refine ⟨?_, ?_, ?_, ?_⟩
  · intro hhost hne
    have hto : t.is_type_of t.ty.elemTy s = false := by
      simp [Tensor.is_type_of, Tensor_isTypeOf, hb]
      exact hne
    unfold Tensor.fill
    rw [hhost]
    simp only [if_true]
    unfold Tensor.fillHostBranch
    rw [hto]
    simp
  · intro hhost hty
    have hto : t.is_type_of t.ty.elemTy s = true := by
      simp [Tensor.is_type_of, Tensor_isTypeOf, hb, hty]
    have hsz : t.element_size s = b.elemCount := by
      simp [Tensor.element_size, Tensor_elementSize, hb]
    refine ⟨writeHostData t.tensor (List.replicate (t.element_size s) value) s, ?_, ?_⟩
    · unfold Tensor.fill
      rw [hhost]
      simp only [if_true]
      unfold Tensor.fillHostBranch
      rw [hto]
      simp
    · rw [Tensor_host_writeHostData_self t.tensor _ s b hb hmem, hsz]
      exact writeList_full hlen
  · intro hhost hcode
    have hdev : t.ty.device = true := by
      simp [TensorTypeD.device, hhost]
    subst hcode
    unfold Tensor.fill
    rw [hhost]
    simp only [Bool.false_eq_true, if_false]
    rw [hdev]
    simp only [if_true, hnew, hfT2, copy_from_host_tensor_fail]
  · intro hhost hcode
    have hdev : t.ty.device = true := by
      simp [TensorTypeD.device, hhost]
    refine ⟨Tensor_destroy s.next
        (writeHostData t.tensor (List.replicate ((b.dims.map Int.toNat).prod) value)
          (EngineState.updateBuf
            { s with
              bufs := (s.next, ⟨b.dims, .CAFFE, halide_type_of t.ty.elemTy,
                .own (List.replicate ((b.dims.map Int.toNat).prod) 0)⟩) :: s.bufs
              next := s.next + 1
              createLog := (s.next, ⟨b.dims, .CAFFE, halide_type_of t.ty.elemTy,
                .own (List.replicate ((b.dims.map Int.toNat).prod) 0)⟩) :: s.createLog }
            s.next
            ⟨b.dims, .CAFFE, halide_type_of t.ty.elemTy,
              .own (List.replicate ((b.dims.map Int.toNat).prod) value)⟩)),
      ⟨b.dims, .CAFFE, halide_type_of t.ty.elemTy,
        .own (List.replicate ((b.dims.map Int.toNat).prod) 0)⟩,
      ?_, ?_, rfl, rfl, rfl, ?_, ?_⟩
    · unfold Tensor.fill
      rw [hhost]
      simp only [Bool.false_eq_true, if_false]
      rw [hdev]
      simp only [if_true, hnew, hfT2,
        copy_from_host_tensor_ok t ⟨.Host t.ty.elemTy, s.next⟩ code hcode, hTt,
        Tensor.drop, TensorTypeD.owned, eq_self_iff_true, if_true]
    · rw [Tensor_destroy_createLog, (writeHostData_frame _ _ _).1]
      rfl
    · rw [Tensor_destroy_destroyLog, (writeHostData_frame _ _ _).2.1]
      rfl
    · rw [Tensor_host_destroy_ne t.tensor s.next _ hfresh]
      rw [Tensor_host_writeHostData_self t.tensor _ _ b hbB hmemB]
      rw [hhdB]
      exact writeList_full hlen

/-- Witness for the amended C4: a host `f32` tensor of two elements filled
with 5, and a device `f32` tensor (TensorFlow layout) filled with 5 under
a successful engine copy. -/
theorem fill_semantics_witness :
    (∃ s1, Tensor.fill ⟨.Host .f32, 1⟩ 5 1
        ⟨[(1, ⟨[2], .CAFFE, ⟨2, 32, 1⟩, .own [0, 0]⟩)], [], 2, [], []⟩ = some s1 ∧
      Tensor_host 1 s1
        = List.replicate (⟨[2], .CAFFE, ⟨2, 32, 1⟩, .own ([0, 0] : List Int)⟩
            : MnnBuffer).elemCount 5) ∧
    (∃ s1 btemp, Tensor.fill ⟨.Device .f32, 7⟩ 5 1
        ⟨[(7, ⟨[2], .TENSORFLOW, ⟨2, 32, 1⟩, .dev [0, 0]⟩)], [], 8, [], []⟩ = some s1 ∧
      s1.createLog = (8, btemp)
        :: (⟨[(7, ⟨[2], .TENSORFLOW, ⟨2, 32, 1⟩, .dev [0, 0]⟩)], [], 8, [], []⟩
            : EngineState).createLog ∧
      btemp.dims = (⟨[2], .TENSORFLOW, ⟨2, 32, 1⟩, .dev ([0, 0] : List Int)⟩
          : MnnBuffer).dims ∧
      btemp.htype = halide_type_of (TensorTypeD.Device HalideTy.f32).elemTy ∧
      btemp.dimType = MnnSysDimensionType.CAFFE ∧
      s1.destroyLog = 8
        :: (⟨[(7, ⟨[2], .TENSORFLOW, ⟨2, 32, 1⟩, .dev [0, 0]⟩)], [], 8, [], []⟩
            : EngineState).destroyLog ∧
      Tensor_host 7 s1
        = List.replicate (⟨[2], .TENSORFLOW, ⟨2, 32, 1⟩, .dev ([0, 0] : List Int)⟩
            : MnnBuffer).elemCount 5) :=
  ⟨(fill_semantics ⟨.Host .f32, 1⟩ 5 1
      ⟨[(1, ⟨[2], .CAFFE, ⟨2, 32, 1⟩, .own [0, 0]⟩)], [], 2, [], []⟩
      ⟨[2], .CAFFE, ⟨2, 32, 1⟩, .own [0, 0]⟩
      (.ofOwned (.host .f32)) rfl rfl
      (by intro e he; simp at he) (by decide) (by decide) (by decide)).2.1 rfl rfl,
   (fill_semantics ⟨.Device .f32, 7⟩ 5 1
      ⟨[(7, ⟨[2], .TENSORFLOW, ⟨2, 32, 1⟩, .dev [0, 0]⟩)], [], 8, [], []⟩
      ⟨[2], .TENSORFLOW, ⟨2, 32, 1⟩, .dev [0, 0]⟩
      (.ofOwned (.device .f32)) rfl rfl
      (by intro e he; simp at he) (by decide) (by decide) (by decide)).2.2.2 rfl
      (by decide)⟩
